import Mathlib

/-!
Verification of the query client in `src/stash_api.rs` of
stash-compilation-maker.

The client exposes three operations (`find_tags`, `find_markers`,
`find_performers`). The only real logic is the construction of the
scene-marker filter in `find_markers`, which varies by a caller-supplied
`FilterMode`; the rest is a shared request/response pipeline: one POST,
`error_for_status`, JSON decoding of a GraphQL envelope, and
`response.data.unwrap()`.

The embedding keeps the source's names. Result-record types (`Tag`,
`Performer`, scene markers) are generated from a GraphQL schema and are
opaque to the client, so the pipeline is polymorphic in them. The
response side of each call is modelled as a function of a
`ServerOutcome`: what the single HTTP exchange produced (transport
failure, a status code, and a body that decodes or not). The `Nat`
component of each result counts the POST requests issued on that path;
the source sends exactly once on every path, with no loop and no retry.
-/

/-- Filter mode, from `crate::http::FilterMode` (the spec's `ByPerformers` /
`ByTags`). The `match` in `find_markers` has exactly the two arms
`FilterMode::Performers` and `FilterMode::Tags` with no default, so the
enumeration has exactly these two variants. -/
inductive FilterMode
  | Performers
  | Tags
deriving DecidableEq

/-- GraphQL `CriterionModifier` enum (generated from the schema); the client
only ever uses `INCLUDES`. -/
inductive CriterionModifier
  | INCLUDES
  | INCLUDES_ALL
  | EXCLUDES
deriving DecidableEq

/-- GraphQL `MultiCriterionInput`: a modifier plus an (optional) list of
identifier values. -/
structure MultiCriterionInput where
  modifier : CriterionModifier
  value : Option (List String)
deriving DecidableEq

/-- GraphQL `HierarchicalMultiCriterionInput`: like `MultiCriterionInput`
with an optional hierarchy depth. -/
structure HierarchicalMultiCriterionInput where
  depth : Option Int
  modifier : CriterionModifier
  value : Option (List String)
deriving DecidableEq

/-- Placeholder for the generated timestamp-criterion input type; the client
never populates these fields, so its content is irrelevant here. -/
structure TimestampCriterionInput where
  value : String
  modifier : CriterionModifier
deriving DecidableEq

/-- Placeholder for the generated date-criterion input type; never populated
by this client. -/
structure DateCriterionInput where
  value : String
  modifier : CriterionModifier
deriving DecidableEq

/-- GraphQL `SceneMarkerFilterType`, fields in the order of the struct
literal at `src/stash_api.rs:85`. -/
structure SceneMarkerFilterType where
  created_at : Option TimestampCriterionInput
  scene_created_at : Option TimestampCriterionInput
  scene_updated_at : Option TimestampCriterionInput
  updated_at : Option TimestampCriterionInput
  performers : Option MultiCriterionInput
  scene_date : Option DateCriterionInput
  scene_tags : Option HierarchicalMultiCriterionInput
  tag_id : Option String
  tags : Option HierarchicalMultiCriterionInput
deriving DecidableEq

/-- GraphQL sort direction enum (generated); never populated by this
client. -/
inductive SortDirectionEnum
  | ASC
  | DESC
deriving DecidableEq

/-- GraphQL `FindFilterType`, fields in the order of the struct literal at
`src/stash_api.rs:113`. -/
structure FindFilterType where
  per_page : Option Int
  page : Option Int
  q : Option String
  sort : Option String
  direction : Option SortDirectionEnum
deriving DecidableEq

/-- `find_markers_query::Variables`: the variables object sent with the
scene-marker query. -/
structure FindMarkersVariables where
  filter : Option FindFilterType
  scene_marker_filter : Option SceneMarkerFilterType
deriving DecidableEq

/-- The scene-marker filter constructed by `find_markers`
(`src/stash_api.rs:85-111`): start from an all-`None` filter, then the
`match` on `mode` populates exactly one criterion. -/
def find_markers_scene_filter (ids : List String) (mode : FilterMode) :
    SceneMarkerFilterType :=
  let scene_filter : SceneMarkerFilterType :=
    { created_at := none
      scene_created_at := none
      scene_updated_at := none
      updated_at := none
      performers := none
      scene_date := none
      scene_tags := none
      tag_id := none
      tags := none }
  match mode with
  | FilterMode.Performers =>
      { scene_filter with
        performers := some
          { modifier := CriterionModifier.INCLUDES
            value := some ids } }
  | FilterMode.Tags =>
      { scene_filter with
        tags := some
          { depth := none
            modifier := CriterionModifier.INCLUDES
            value := some ids } }

/-- The variables object built by `find_markers` (`src/stash_api.rs:112-121`):
a find-filter with `per_page = Some(-1)` and everything else absent, plus
the mode-dependent scene-marker filter. -/
def find_markers_variables (ids : List String) (mode : FilterMode) :
    FindMarkersVariables :=
  { filter := some
      { per_page := some (-1)
        page := none
        q := none
        sort := none
        direction := none }
    scene_marker_filter := some (find_markers_scene_filter ids mode) }

/-- The GraphQL response envelope (`graphql_client::Response`): an optional
`data` payload and an optional list of error entries (modelled by their
messages). -/
structure GraphQLResponse (D : Type) where
  data : Option D
  errors : Option (List String)
deriving DecidableEq

/-- What decoding the HTTP response body produced: either `response.json()`
fails, or it yields an envelope. -/
inductive BodyOutcome (D : Type)
  | decodeFailure
  | envelope (env : GraphQLResponse D)
deriving DecidableEq

/-- What the single HTTP exchange produced: the `send()` future fails at the
transport layer, or the server answered with a status code and a body. -/
inductive ServerOutcome (D : Type)
  | transportFailure
  | response (status : Nat) (body : BodyOutcome D)
deriving DecidableEq

/-- The outcome of one client operation as seen by its caller. `panicked`
models the abrupt termination caused by `.unwrap()` on a missing `data`
field; `decodeError` is the typed Protocol/decode error produced when the
body fails to parse as the envelope. -/
inductive CallResult (A : Type)
  | ok (value : A)
  | transportError
  | statusError (status : Nat)
  | decodeError
  | panicked
deriving DecidableEq

/-- `reqwest`'s `error_for_status`: errors exactly when the status is a
client error (400-499) or a server error (500-599). -/
def is_client_or_server_error (status : Nat) : Bool :=
  400 ≤ status && status ≤ 599

/-- Nested payload `find_tags.tags` of the tags query's `ResponseData`. -/
structure FindTagsQueryFindTags (Tag : Type) where
  tags : List Tag
deriving DecidableEq

/-- `find_tags_query::ResponseData`. -/
structure FindTagsResponseData (Tag : Type) where
  find_tags : FindTagsQueryFindTags Tag
deriving DecidableEq

/-- Nested payload `find_scene_markers.scene_markers` of the markers query's
`ResponseData`. -/
structure FindMarkersQueryFindSceneMarkers (M : Type) where
  scene_markers : List M
deriving DecidableEq

/-- `find_markers_query::ResponseData`. -/
structure FindMarkersResponseData (M : Type) where
  find_scene_markers : FindMarkersQueryFindSceneMarkers M
deriving DecidableEq

/-- Nested payload `find_performers.performers` of the performers query's
`ResponseData`. -/
structure FindPerformersQueryFindPerformers (P : Type) where
  performers : List P
deriving DecidableEq

/-- `find_performers_query::ResponseData`. -/
structure FindPerformersResponseData (P : Type) where
  find_performers : FindPerformersQueryFindPerformers P
deriving DecidableEq

/-- `Api::find_tags` (`src/stash_api.rs:64-82`), as a function of the single
HTTP exchange's outcome. The first component counts POST requests issued:
the body has exactly one `send()` and no retry on any path. The result
mirrors `send().await?`, `.error_for_status()?`, `response.json().await?`,
then `response.data.unwrap().find_tags.tags`. -/
def find_tags (Tag : Type) (outcome : ServerOutcome (FindTagsResponseData Tag)) :
    Nat × CallResult (List Tag) :=
  match outcome with
  | ServerOutcome.transportFailure => (1, CallResult.transportError)
  | ServerOutcome.response status body =>
    if is_client_or_server_error status then
      (1, CallResult.statusError status)
    else
      match body with
      | BodyOutcome.decodeFailure => (1, CallResult.decodeError)
      | BodyOutcome.envelope env =>
        match env.data with
        | none => (1, CallResult.panicked)
        | some d => (1, CallResult.ok d.find_tags.tags)

/-- `Api::find_markers` (`src/stash_api.rs:84-137`): builds the variables
object from `ids` and `mode`, then runs the same pipeline as `find_tags`,
ending in `response.data.unwrap()` and the projection
`.find_scene_markers.scene_markers`. -/
def find_markers (M : Type) (ids : List String) (mode : FilterMode)
    (outcome : ServerOutcome (FindMarkersResponseData M)) :
    FindMarkersVariables × Nat × CallResult (List M) :=
  (find_markers_variables ids mode,
    match outcome with
    | ServerOutcome.transportFailure => (1, CallResult.transportError)
    | ServerOutcome.response status body =>
      if is_client_or_server_error status then
        (1, CallResult.statusError status)
      else
        match body with
        | BodyOutcome.decodeFailure => (1, CallResult.decodeError)
        | BodyOutcome.envelope env =>
          match env.data with
          | none => (1, CallResult.panicked)
          | some d => (1, CallResult.ok d.find_scene_markers.scene_markers))

/-- `Api::find_performers` (`src/stash_api.rs:139-155`): same pipeline,
projection `.find_performers.performers`. -/
def find_performers (P : Type)
    (outcome : ServerOutcome (FindPerformersResponseData P)) :
    Nat × CallResult (List P) :=
  match outcome with
  | ServerOutcome.transportFailure => (1, CallResult.transportError)
  | ServerOutcome.response status body =>
    if is_client_or_server_error status then
      (1, CallResult.statusError status)
    else
      match body with
      | BodyOutcome.decodeFailure => (1, CallResult.decodeError)
      | BodyOutcome.envelope env =>
        match env.data with
        | none => (1, CallResult.panicked)
        | some d => (1, CallResult.ok d.find_performers.performers)

/-- Claim C1: for every identifier list and every Filter Mode, the
scene-marker filter never has both the performers criterion and the tags
criterion populated: under `Performers` the tags criterion is absent, under
`Tags` the performers criterion is absent, and the two branches are
exhaustive over the two-variant `FilterMode` enumeration. -/
theorem find_markers_filter_criteria_mutually_exclusive
    (ids : List String) (mode : FilterMode) :
    ((find_markers_scene_filter ids FilterMode.Performers).tags = none)
    ∧ ((find_markers_scene_filter ids FilterMode.Tags).performers = none)
    ∧ ((find_markers_scene_filter ids mode).performers = none
        ∨ (find_markers_scene_filter ids mode).tags = none)
    ∧ (mode = FilterMode.Performers ∨ mode = FilterMode.Tags) := by
  cases mode <;> simp [find_markers_scene_filter]

/-- Claim C2: under mode `Performers`, the constructed scene-marker filter
has its performers criterion set to `{ modifier := INCLUDES, value := some
ids }` and its tags criterion absent. -/
theorem find_markers_by_performers_filter (ids : List String) :
    (find_markers_scene_filter ids FilterMode.Performers).performers =
      some { modifier := CriterionModifier.INCLUDES, value := some ids }
    ∧ (find_markers_scene_filter ids FilterMode.Performers).tags = none :=
  ⟨rfl, rfl⟩

/-- Claim C3: under mode `Tags`, the constructed scene-marker filter has its
tags criterion set to `{ depth := none, modifier := INCLUDES, value := some
ids }` and its performers criterion absent. -/
theorem find_markers_by_tags_filter (ids : List String) :
    (find_markers_scene_filter ids FilterMode.Tags).tags =
      some { depth := none
             modifier := CriterionModifier.INCLUDES
             value := some ids }
    ∧ (find_markers_scene_filter ids FilterMode.Tags).performers = none :=
  ⟨rfl, rfl⟩

/-- Claim C4, counterexample: on a well-formed envelope whose `data` field is
absent, `find_tags` does not return the typed Protocol/decode error the
claim states; it panics (the `.unwrap()` at `src/stash_api.rs:79`). -/
theorem find_tags_missing_data_not_protocol_error :
    (find_tags Nat (ServerOutcome.response 200
        (BodyOutcome.envelope ⟨none, some ["remote error"]⟩))).2
      ≠ CallResult.decodeError
    ∧ (find_tags Nat (ServerOutcome.response 200
        (BodyOutcome.envelope ⟨none, some ["remote error"]⟩))).2
      = CallResult.panicked := by
  decide

/-- Claim C4, amended: for every response whose envelope is well-formed JSON
but has the `data` field absent (and whose status passed the
`error_for_status` check), the list-tags operation panics/aborts via
`.unwrap()` rather than returning a typed error. -/
theorem find_tags_missing_data_panics (Tag : Type) (status : Nat)
    (errs : Option (List String))
    (h : is_client_or_server_error status = false) :
    (find_tags Tag (ServerOutcome.response status
        (BodyOutcome.envelope ⟨none, errs⟩))).2 = CallResult.panicked := by
  simp [find_tags, h]

/-- Witness for the amended C4 at status 200 with an errors-only envelope. -/
theorem find_tags_missing_data_panics_witness :
    is_client_or_server_error 200 = false
    ∧ (find_tags Nat (ServerOutcome.response 200
        (BodyOutcome.envelope ⟨none, some ["remote error"]⟩))).2
      = CallResult.panicked :=
  ⟨by decide,
    find_tags_missing_data_panics Nat 200 (some ["remote error"]) (by decide)⟩

/-- Claim C5: on an envelope that parses but carries no `data`, each of the
three operations panics/aborts (it does not return a typed error); when
`data` is present each extracts and returns the query-specific nested
field. -/
theorem operations_unwrap_data (T M P : Type) (status : Nat)
    (errs : Option (List String))
    (h : is_client_or_server_error status = false)
    (dT : FindTagsResponseData T) (dM : FindMarkersResponseData M)
    (dP : FindPerformersResponseData P)
    (ids : List String) (mode : FilterMode) :
    (find_tags T (ServerOutcome.response status
        (BodyOutcome.envelope ⟨none, errs⟩))).2 = CallResult.panicked
    ∧ ((find_markers M ids mode (ServerOutcome.response status
        (BodyOutcome.envelope ⟨none, errs⟩))).2).2 = CallResult.panicked
    ∧ (find_performers P (ServerOutcome.response status
        (BodyOutcome.envelope ⟨none, errs⟩))).2 = CallResult.panicked
    ∧ (find_tags T (ServerOutcome.response status
        (BodyOutcome.envelope ⟨some dT, errs⟩))).2
      = CallResult.ok dT.find_tags.tags
    ∧ ((find_markers M ids mode (ServerOutcome.response status
        (BodyOutcome.envelope ⟨some dM, errs⟩))).2).2
      = CallResult.ok dM.find_scene_markers.scene_markers
    ∧ (find_performers P (ServerOutcome.response status
        (BodyOutcome.envelope ⟨some dP, errs⟩))).2
      = CallResult.ok dP.find_performers.performers := by
  simp [find_tags, find_markers, find_performers, h]

/-- Witness for C5 at status 200 with concrete payloads. -/
theorem operations_unwrap_data_witness :
    is_client_or_server_error 200 = false
    ∧ ((find_tags Nat (ServerOutcome.response 200
        (BodyOutcome.envelope ⟨none, none⟩))).2 = CallResult.panicked
    ∧ ((find_markers Nat ["1"] FilterMode.Performers (ServerOutcome.response 200
        (BodyOutcome.envelope ⟨none, none⟩))).2).2 = CallResult.panicked
    ∧ (find_performers Nat (ServerOutcome.response 200
        (BodyOutcome.envelope ⟨none, none⟩))).2 = CallResult.panicked
    ∧ (find_tags Nat (ServerOutcome.response 200
        (BodyOutcome.envelope ⟨some ⟨⟨[1]⟩⟩, none⟩))).2
      = CallResult.ok (FindTagsResponseData.find_tags ⟨⟨[1]⟩⟩).tags
    ∧ ((find_markers Nat ["1"] FilterMode.Performers (ServerOutcome.response 200
        (BodyOutcome.envelope ⟨some ⟨⟨[2]⟩⟩, none⟩))).2).2
      = CallResult.ok (FindMarkersResponseData.find_scene_markers ⟨⟨[2]⟩⟩).scene_markers
    ∧ (find_performers Nat (ServerOutcome.response 200
        (BodyOutcome.envelope ⟨some ⟨⟨[3]⟩⟩, none⟩))).2
      = CallResult.ok (FindPerformersResponseData.find_performers ⟨⟨[3]⟩⟩).performers) :=
  ⟨by decide,
    operations_unwrap_data Nat Nat Nat 200 none (by decide)
      ⟨⟨[1]⟩⟩ ⟨⟨[2]⟩⟩ ⟨⟨[3]⟩⟩ ["1"] FilterMode.Performers⟩

/-- Claim C6: for every identifier list and every Filter Mode, the
scene-marker request's find-filter carries `per_page = Some(-1)` (the
unbounded sentinel) and no page number (and nothing else). -/
theorem find_markers_find_filter_unbounded (ids : List String)
    (mode : FilterMode) :
    (find_markers_variables ids mode).filter =
      some { per_page := some (-1)
             page := none
             q := none
             sort := none
             direction := none } :=
  rfl

/-- Claim C7: on a successful response whose envelope carries `data`, each
operation returns exactly the nested collection the envelope carries —
the very same list, hence same elements and order, with no filtering,
deduplication or sorting. -/
theorem operations_return_payload_verbatim (T M P : Type) (status : Nat)
    (errs : Option (List String))
    (h : is_client_or_server_error status = false)
    (tagList : List T) (markerList : List M) (performerList : List P)
    (ids : List String) (mode : FilterMode) :
    (find_tags T (ServerOutcome.response status
        (BodyOutcome.envelope ⟨some ⟨⟨tagList⟩⟩, errs⟩))).2
      = CallResult.ok tagList
    ∧ ((find_markers M ids mode (ServerOutcome.response status
        (BodyOutcome.envelope ⟨some ⟨⟨markerList⟩⟩, errs⟩))).2).2
      = CallResult.ok markerList
    ∧ (find_performers P (ServerOutcome.response status
        (BodyOutcome.envelope ⟨some ⟨⟨performerList⟩⟩, errs⟩))).2
      = CallResult.ok performerList := by
  simp [find_tags, find_markers, find_performers, h]

/-- Witness for C7 at status 200, with lists containing duplicates so that
the absence of deduplication and reordering is visible. -/
theorem operations_return_payload_verbatim_witness :
    is_client_or_server_error 200 = false
    ∧ ((find_tags Nat (ServerOutcome.response 200
        (BodyOutcome.envelope ⟨some ⟨⟨[3, 1, 3]⟩⟩, none⟩))).2
      = CallResult.ok [3, 1, 3]
    ∧ ((find_markers Nat ["7"] FilterMode.Tags (ServerOutcome.response 200
        (BodyOutcome.envelope ⟨some ⟨⟨[2, 2]⟩⟩, none⟩))).2).2
      = CallResult.ok [2, 2]
    ∧ (find_performers Nat (ServerOutcome.response 200
        (BodyOutcome.envelope ⟨some ⟨⟨[9, 8, 9]⟩⟩, none⟩))).2
      = CallResult.ok [9, 8, 9]) :=
  ⟨by decide,
    operations_return_payload_verbatim Nat Nat Nat 200 none (by decide)
      [3, 1, 3] [2, 2] [9, 8, 9] ["7"] FilterMode.Tags⟩

/-- Claim C8, counterexample: status 304 is not a success status (it is
outside 200-299), yet `error_for_status` only rejects 400-599, so the
operation does not fail with an HTTP-status error there: with a decodable
body it returns the payload. -/
theorem find_tags_status_304_not_status_error :
    ¬ (200 ≤ (304 : Nat) ∧ (304 : Nat) ≤ 299)
    ∧ (find_tags Nat (ServerOutcome.response 304
        (BodyOutcome.envelope ⟨some ⟨⟨[5]⟩⟩, none⟩))).2
      ≠ CallResult.statusError 304
    ∧ (find_tags Nat (ServerOutcome.response 304
        (BodyOutcome.envelope ⟨some ⟨⟨[5]⟩⟩, none⟩))).2
      = CallResult.ok [5] := by
  decide

/-- Claim C8, amended: for every response with a client-error or
server-error HTTP status (400-599), each of the three operations fails with
an HTTP-status error carrying that status, after exactly one request (no
retry) and with no partial result, whatever the body holds. -/
theorem operations_fail_on_error_status (T M P : Type) (status : Nat)
    (h : is_client_or_server_error status = true)
    (bT : BodyOutcome (FindTagsResponseData T))
    (bM : BodyOutcome (FindMarkersResponseData M))
    (bP : BodyOutcome (FindPerformersResponseData P))
    (ids : List String) (mode : FilterMode) :
    find_tags T (ServerOutcome.response status bT)
      = (1, CallResult.statusError status)
    ∧ (find_markers M ids mode (ServerOutcome.response status bM)).2
      = (1, CallResult.statusError status)
    ∧ find_performers P (ServerOutcome.response status bP)
      = (1, CallResult.statusError status) := by
  simp [find_tags, find_markers, find_performers, h]

/-- Witness for the amended C8 at status 401. -/
theorem operations_fail_on_error_status_witness :
    is_client_or_server_error 401 = true
    ∧ (find_tags Nat (ServerOutcome.response 401 BodyOutcome.decodeFailure)
      = (1, CallResult.statusError 401)
    ∧ (find_markers Nat ["1"] FilterMode.Performers
        (ServerOutcome.response 401 BodyOutcome.decodeFailure)).2
      = (1, CallResult.statusError 401)
    ∧ find_performers Nat (ServerOutcome.response 401 BodyOutcome.decodeFailure)
      = (1, CallResult.statusError 401)) :=
  ⟨by decide,
    operations_fail_on_error_status Nat Nat Nat 401 (by decide)
      BodyOutcome.decodeFailure BodyOutcome.decodeFailure
      BodyOutcome.decodeFailure ["1"] FilterMode.Performers⟩

/-- Claim C9: for every identifier list and every Filter Mode, all
scene-marker-filter fields other than the mode-selected criterion —
creation/update timestamps, scene creation/update timestamps, scene date,
scene-level tags and tag id — are absent in the constructed filter. -/
theorem find_markers_other_fields_absent (ids : List String)
    (mode : FilterMode) :
    (find_markers_scene_filter ids mode).created_at = none
    ∧ (find_markers_scene_filter ids mode).scene_created_at = none
    ∧ (find_markers_scene_filter ids mode).scene_updated_at = none
    ∧ (find_markers_scene_filter ids mode).updated_at = none
    ∧ (find_markers_scene_filter ids mode).scene_date = none
    ∧ (find_markers_scene_filter ids mode).scene_tags = none
    ∧ (find_markers_scene_filter ids mode).tag_id = none := by
  cases mode <;> simp [find_markers_scene_filter]

/-- Claim C10: under either mode the identifier list is placed into the
selected criterion's value verbatim — the value is `some ids`, the very
list passed in, so order and duplicates are preserved — and the criterion
is populated even when the list is empty. -/
theorem find_markers_ids_verbatim (ids : List String) :
    (find_markers_scene_filter ids FilterMode.Performers).performers =
      some { modifier := CriterionModifier.INCLUDES, value := some ids }
    ∧ (find_markers_scene_filter ids FilterMode.Tags).tags =
      some { depth := none
             modifier := CriterionModifier.INCLUDES
             value := some ids }
    ∧ (find_markers_scene_filter ([] : List String)
        FilterMode.Performers).performers =
      some { modifier := CriterionModifier.INCLUDES, value := some [] }
    ∧ (find_markers_scene_filter ([] : List String) FilterMode.Tags).tags =
      some { depth := none
             modifier := CriterionModifier.INCLUDES
             value := some [] } :=
  ⟨rfl, rfl, rfl, rfl⟩
